import Mathlib

/-!
Verification development for the retrying HTTP client of the
`mcp-elevenlabs-api` repository (`src/api/client.ts`).

The TypeScript source is shallowly embedded below.  JavaScript runtime
conventions that the source relies on are modelled explicitly:

* JS numbers holding the retry configuration are modelled as `Option Int`,
  where `none` models `NaN` (the result of `parseInt` on a non-numeric
  string) and `some n` models the integer `n`.  Fractional values never
  arise in the claims under study.
* JS truthiness (`if (x)`) on strings is `x ≠ ""`, on optional values
  `none` is falsy, and on parsed JSON values it follows `jsTruthy` below.
* An object literal with a spread (`{ a: x, ...h }`) is modelled as an
  association list in which later entries shadow earlier ones
  (`jsObjGet` reads the last binding of a key).
* JSON values are modelled by `JVal`; `JSON.parse` of a response body is
  part of the environment's answer for that attempt (`HttpResp.jsonBody`,
  an `Except` whose `error` carries the `SyntaxError` message).
  JSON numbers are modelled as integers; no claim depends on fractional
  JSON numbers.  `JSON.stringify` of the request body is not modelled:
  the body is carried structurally in `FetchSpec` (no claim inspects the
  serialized wire body).
* `fetch` is modelled by an oracle `Nat → FetchSpec → FetchRes` giving,
  for each attempt index and the request actually sent, either a network
  error (rejected promise) or a delivered response together with its
  body.  Reading a delivered body (`text()`, `arrayBuffer()`) is taken
  to succeed, i.e. body-streaming faults are folded into `netError`.
-/

namespace Elv

/-- A JSON value, as produced by `JSON.parse`.  Parsed objects carry
unique keys (as `JSON.parse` collapses duplicates). -/
inductive JVal where
  | jNull
  | jBool (b : Bool)
  | jNum (n : Int)
  | jStr (s : String)
  | jArr (elems : List JVal)
  | jObj (fields : List (String × JVal))

/-- JS truthiness of a JSON value. -/
def jsTruthy : JVal → Bool
  | .jNull => false
  | .jBool b => b
  | .jNum n => n != 0
  | .jStr s => s != ""
  | .jArr _ => true
  | .jObj _ => true

/-- Property access `v.k` on a parsed JSON value: defined on objects,
`undefined` (here `none`) on every non-object. -/
def JVal.getField : JVal → String → Option JVal
  | .jObj fields, k => (fields.find? (fun p => p.1 == k)).map (fun p => p.2)
  | _, _ => none

mutual

/-- JS string conversion (`String(v)`, as used by template literals). -/
def jvalToString : JVal → String
  | .jNull => "null"
  | .jBool b => if b then "true" else "false"
  | .jNum n => toString n
  | .jStr s => s
  | .jArr elems => String.intercalate "," (jvalArrStrings elems)
  | .jObj _ => "[object Object]"

/-- Array elements under JS `toString`: `null` renders as the empty
string inside an array. -/
def jvalArrStrings : List JVal → List String
  | [] => []
  | .jNull :: rest => "" :: jvalArrStrings rest
  | v :: rest => jvalToString v :: jvalArrStrings rest

end

/-- Constant `ELEVENLABS_API_BASE` from `src/config/constants.ts`. -/
def ELEVENLABS_API_BASE : String := "https://api.elevenlabs.io/v1"

/-- The `ERROR_MESSAGES` table from `src/config/constants.ts`. -/
def ERROR_MESSAGES : Nat → Option String
  | 400 => some "Bad Request - Invalid parameters provided"
  | 401 => some "Unauthorized - Invalid or missing API key"
  | 403 => some "Forbidden - Insufficient permissions for this operation"
  | 429 => some "Rate Limited - Too many requests, please try again later"
  | 500 => some "Server Error - ElevenLabs service temporarily unavailable"
  | 502 => some "Bad Gateway - ElevenLabs service temporarily unavailable"
  | 503 => some "Service Unavailable - ElevenLabs service temporarily unavailable"
  | _ => none

/-- Rendering of a JS number that may be `NaN` (modelled by `none`). -/
def jsNumToString : Option Int → String
  | some n => toString n
  | none => "NaN"

/-- Method `ElevenLabsClient.getErrorMessage`.  Here `detail` is the runtime value of
`errorDetail` (typed `string | undefined` in the source but unchecked at
runtime); the `detail ? … : …` test is JS truthiness. -/
def getErrorMessage (status : Nat) (detail : Option JVal) : String :=
  let baseMessage := (ERROR_MESSAGES status).getD ("HTTP Error " ++ toString status)
  match detail with
  | some d => if jsTruthy d then baseMessage ++ ": " ++ jvalToString d else baseMessage
  | none => baseMessage

/-- JS `parseInt(s, 10)`: skip leading whitespace, optional sign, then
the longest leading run of decimal digits; `NaN` (here `none`) if that
run is empty. -/
def parseIntJs (s : String) : Option Int :=
  let cs := s.toList.dropWhile Char.isWhitespace
  let signRest : Int × List Char :=
    match cs with
    | '-' :: rest => (-1, rest)
    | '+' :: rest => (1, rest)
    | _ => (1, cs)
  let digits := signRest.2.takeWhile Char.isDigit
  if digits.isEmpty then none
  else some (signRest.1 * Int.ofNat (digits.foldl (fun acc ch => acc * 10 + (ch.toNat - 48)) 0))

/-- JS `x || dflt` for an optional environment string: `undefined` and
the empty string both fall back to the default. -/
def jsOrDefault (v : Option String) (dflt : String) : String :=
  match v with
  | some s => if s = "" then dflt else s
  | none => dflt

/-- The `ClientConfig` interface.  The outer `Option` on the numeric
fields models an omitted (`undefined`) field, the inner one models
`NaN`. -/
structure ClientConfig where
  apiKey : String
  maxRetries : Option (Option Int)
  retryDelayMs : Option (Option Int)

/-- The `ElevenLabsClient` state after construction. -/
structure ElevenLabsClient where
  apiKey : String
  maxRetries : Option Int
  retryDelayMs : Option Int

/-- The `ElevenLabsClient` constructor: `config.maxRetries ?? 3` and
`config.retryDelayMs ?? 1000` (the `??` applies only to an omitted
field, not to `NaN`). -/
def ElevenLabsClient.ofConfig (config : ClientConfig) : ElevenLabsClient :=
  ⟨config.apiKey, config.maxRetries.getD (some 3), config.retryDelayMs.getD (some 1000)⟩

/-- Field `RequestOptions.method`. -/
inductive HttpMethod where
  | GET
  | POST
  | PUT
  | DELETE

/-- Field `RequestOptions.responseType`. -/
inductive ResponseType where
  | json
  | arraybuffer

/-- The `RequestOptions` argument of `request`, with the destructuring
defaults of the source already applied (`method = GET`, no body, empty
headers, `responseType = json` when omitted). -/
structure RequestOptions where
  method : HttpMethod
  body : Option JVal
  headers : List (String × String)
  responseType : ResponseType

/-- Last-binding lookup in an association list modelling a JS object
built left to right (later writes shadow earlier ones). -/
def jsObjGet (m : List (String × String)) (k : String) : Option String :=
  (m.reverse.find? (fun p => p.1 == k)).map (fun p => p.2)

/-- JS truthiness of `body` (`undefined` and falsy values such as `0`,
`""`, `false`, `null` all fail the `if (body … )` test). -/
def bodyTruthy : Option JVal → Bool
  | some v => jsTruthy v
  | none => false

/-- JS truthiness of a header lookup (`undefined` and `""` are falsy). -/
def ctTruthy : Option String → Bool
  | some s => s != ""
  | none => false

/-- Header construction in `request`:
`{ 'xi-api-key': this.apiKey, ...headers }` followed by
`if (body && !requestHeaders['Content-Type']) requestHeaders['Content-Type'] = 'application/json'`. -/
def buildRequestHeaders (apiKey : String) (options : RequestOptions) : List (String × String) :=
  let requestHeaders := [("xi-api-key", apiKey)] ++ options.headers
  if bodyTruthy options.body && !ctTruthy (jsObjGet requestHeaders "Content-Type") then
    requestHeaders ++ [("Content-Type", "application/json")]
  else
    requestHeaders

/-- The argument actually handed to `fetch` on every attempt. -/
structure FetchSpec where
  url : String
  method : HttpMethod
  headers : List (String × String)
  body : Option JVal

/-- What `request` passes to `fetch`: base URL concatenation, the built
headers, and `body ? JSON.stringify(body) : undefined` (kept
structurally). -/
def requestFetchSpec (c : ElevenLabsClient) (endpoint : String) (options : RequestOptions) :
    FetchSpec :=
  ⟨ELEVENLABS_API_BASE ++ endpoint, options.method, buildRequestHeaders c.apiKey options,
    if bodyTruthy options.body then options.body else none⟩

/-- One delivered HTTP response, with the observations the source makes
of its body: raw bytes (`arrayBuffer()`), text (`text()`), and the
outcome of `JSON.parse` on that text (`error` carries the `SyntaxError`
message). -/
structure HttpResp where
  status : Nat
  bodyBytes : List Nat
  bodyText : String
  jsonBody : Except String JVal

/-- The environment's answer to one `fetch` call. -/
inductive FetchRes where
  | netError (message : String)
  | response (resp : HttpResp)

/-- A decoded success payload. -/
inductive RetVal where
  | bytes (data : List Nat)
  | json (v : JVal)

/-- What one call to `request` can produce for its caller: a decoded
payload, a thrown `Error` tagged with a (truthy) `status`, or a thrown
plain `Error` without a status tag. -/
inductive ReqOutcome where
  | success (v : RetVal)
  | errStatus (status : Nat) (message : String)
  | errPlain (message : String)

/-- Test `response.ok`: status in the inclusive range 200–299. -/
def respOk (status : Nat) : Bool :=
  decide (200 ≤ status) && decide (status ≤ 299)

/-- The loop guard `attempt < this.maxRetries` under JS comparison
(`x < NaN` is false). -/
def jsLtMax (attempt : Nat) (maxRetries : Option Int) : Bool :=
  match maxRetries with
  | some m => decide ((attempt : Int) < m)
  | none => false

/-- Delay `Math.pow(2, attempt) * this.retryDelayMs` (propagating `NaN`). -/
def delayOf (c : ElevenLabsClient) (attempt : Nat) : Option Int :=
  c.retryDelayMs.map (fun d => 2 ^ attempt * d)

/-- The message of the `Error` thrown when the network-error path runs
out of attempts: `Network error after ${this.maxRetries + 1} attempts: …`. -/
def exhaustMsg (c : ElevenLabsClient) (message : String) : String :=
  "Network error after " ++ jsNumToString (c.maxRetries.map (fun m => m + 1)) ++
    " attempts: " ++ message

/-- Extraction of `errorDetail` in the non-ok branch:
`JSON.parse(errorBody)` then `errorJson.detail?.message`, with the inner
`catch` assigning the raw body text when parsing — or the property
access on a parsed `null` — throws. -/
def extractErrorDetail (resp : HttpResp) : Option JVal :=
  match resp.jsonBody with
  | .error _ => some (.jStr resp.bodyText)
  | .ok .jNull => some (.jStr resp.bodyText)
  | .ok v =>
    match v.getField "detail" with
    | none => none
    | some .jNull => none
    | some d => d.getField "message"

/-- What one iteration of the attempt loop does, given the `fetch`
outcome for that attempt: either leave the loop with a result
(`return` or an uncaught `throw`), or sleep `delay` and `continue`
after storing `stored` in `lastError`. -/
inductive BodyRes where
  | exit (o : ReqOutcome)
  | next (delay : Option Int) (stored : ReqOutcome)

/-- One iteration of the attempt loop of `ElevenLabsClient.request`,
lines 62–116 of `client.ts`.  A thrown error that carries a truthy
`status` is rethrown by the `catch` block (exit); a JSON-decode failure
on a 2xx body and a thrown error whose `status` is the falsy `0` both
take the network-error path of the `catch` block. -/
def loopBody (c : ElevenLabsClient) (rt : ResponseType) (r : FetchRes) (attempt : Nat) :
    BodyRes :=
  match r with
  | .netError message =>
    if jsLtMax attempt c.maxRetries then
      .next (delayOf c attempt) (.errPlain message)
    else
      .exit (.errPlain (exhaustMsg c message))
  | .response resp =>
    if respOk resp.status then
      match rt with
      | .arraybuffer => .exit (.success (.bytes resp.bodyBytes))
      | .json =>
        match resp.jsonBody with
        | .ok v => .exit (.success (.json v))
        | .error e =>
          if jsLtMax attempt c.maxRetries then
            .next (delayOf c attempt) (.errPlain e)
          else
            .exit (.errPlain (exhaustMsg c e))
    else
      let message := getErrorMessage resp.status (extractErrorDetail resp)
      if (resp.status == 429 || decide (500 ≤ resp.status)) && jsLtMax attempt c.maxRetries then
        .next (delayOf c attempt) (.errStatus resp.status message)
      else if resp.status != 0 then
        .exit (.errStatus resp.status message)
      else if jsLtMax attempt c.maxRetries then
        .next (delayOf c attempt) (.errPlain message)
      else
        .exit (.errPlain (exhaustMsg c message))

/-- How a run of the attempt loop ended: with a result produced inside
the loop, or by falling off the loop's end (guard failure) carrying the
final `lastError`. -/
inductive LoopRes where
  | exited (o : ReqOutcome)
  | finished (lastError : Option ReqOutcome)

/-- Observable side effects of a run: number of `fetch` calls issued and
the backoff delays slept, in order. -/
structure Trace where
  calls : Nat
  sleeps : List (Option Int)

/-- The attempt loop, run from attempt index `attempt` with `rem`
further iterations allowed by the `attempt <= maxRetries` loop guard
(so `rem = maxRetries - attempt` at every reachable call).  A `continue`
with no iterations left (possible only if the body's retry guards could
fire on the last admitted attempt) makes the guard fail, ending the loop
with the stored `lastError`. -/
def runLoop (c : ElevenLabsClient) (rt : ResponseType) (oracle : Nat → FetchRes) :
    Nat → Nat → LoopRes × Trace
  | attempt, 0 =>
    match loopBody c rt (oracle attempt) attempt with
    | .exit o => (.exited o, ⟨1, []⟩)
    | .next delay stored => (.finished (some stored), ⟨1, [delay]⟩)
  | attempt, rem + 1 =>
    match loopBody c rt (oracle attempt) attempt with
    | .exit o => (.exited o, ⟨1, []⟩)
    | .next delay _stored =>
      let r := runLoop c rt oracle (attempt + 1) rem
      (r.1, ⟨r.2.calls + 1, delay :: r.2.sleeps⟩)

/-- Method `ElevenLabsClient.request`.  The environment is an oracle answering
each `fetch(url, …)` call; the request handed to `fetch` is the same
`FetchSpec` on every attempt.  When `maxRetries` is negative or `NaN`
the `for` loop body never runs and line 119 throws
`lastError || new Error('Request failed after all retries')` with
`lastError` still `null`. -/
def request (c : ElevenLabsClient) (endpoint : String) (options : RequestOptions)
    (oracle : Nat → FetchSpec → FetchRes) : ReqOutcome × Trace :=
  let spec := requestFetchSpec c endpoint options
  match c.maxRetries with
  | some m =>
    if 0 ≤ m then
      match runLoop c options.responseType (fun a => oracle a spec) 0 m.toNat with
      | (.exited o, t) => (o, t)
      | (.finished lastError, t) =>
        (lastError.getD (.errPlain "Request failed after all retries"), t)
    else
      (.errPlain "Request failed after all retries", ⟨0, []⟩)
  | none => (.errPlain "Request failed after all retries", ⟨0, []⟩)

/-- The environment variables read by `getClient`. -/
structure Env where
  elevenlabsApiKey : Option String
  maxRetriesVar : Option String
  retryDelayMsVar : Option String

/-- Function `getClient`: returns the existing instance when the module-level
`clientInstance` is set (objects are truthy); otherwise checks the
credential (`!apiKey` catches both an unset and an empty variable),
constructs the instance from the environment, and stores it.  The
returned pair is (returned client, new `clientInstance`). -/
def getClient (env : Env) (clientInstance : Option ElevenLabsClient) :
    Except String (ElevenLabsClient × Option ElevenLabsClient) :=
  match clientInstance with
  | some c => .ok (c, some c)
  | none =>
    match env.elevenlabsApiKey with
    | none => .error "ELEVENLABS_API_KEY environment variable is required"
    | some apiKey =>
      if apiKey = "" then
        .error "ELEVENLABS_API_KEY environment variable is required"
      else
        let c := ElevenLabsClient.ofConfig
          ⟨apiKey, some (parseIntJs (jsOrDefault env.maxRetriesVar "3")),
            some (parseIntJs (jsOrDefault env.retryDelayMsVar "1000"))⟩
        .ok (c, some c)

/-- Function `resetClient`: clears the module-level instance. -/
def resetClient (_clientInstance : Option ElevenLabsClient) : Option ElevenLabsClient :=
  none

/-! ### Predicates on one attempt's `fetch` outcome -/

/-- The attempt received a response whose status the source treats as
retryable: `status === 429 || status >= 500`. -/
def isRetryableStatus : FetchRes → Bool
  | .response resp => resp.status == 429 || decide (500 ≤ resp.status)
  | .netError _ => false

/-- The attempt received a response with status 500. -/
def isStatus500 : FetchRes → Bool
  | .response resp => resp.status == 500
  | .netError _ => false

/-- The attempt received a 2xx response whose body is not valid JSON
(so `response.json()` rejects). -/
def isOkUnparseable : FetchRes → Bool
  | .response resp =>
    respOk resp.status &&
      (match resp.jsonBody with
       | .error _ => true
       | .ok _ => false)
  | .netError _ => false

/-! ### Concrete specimens used by witnesses and counterexamples -/

/-- A client with the default configuration values. -/
def wClient : ElevenLabsClient :=
  ⟨"key", some 3, some 1000⟩

/-- A client with one retry and a 100 ms base delay. -/
def wClient1 : ElevenLabsClient :=
  ⟨"k", some 1, some 100⟩

/-- A client with no retries allowed. -/
def wClient0 : ElevenLabsClient :=
  ⟨"key", some 0, some 1000⟩

/-- A plain GET expecting JSON. -/
def wOpts : RequestOptions :=
  ⟨.GET, none, [], .json⟩

/-- A plain GET expecting raw bytes. -/
def wOptsBuf : RequestOptions :=
  ⟨.GET, none, [], .arraybuffer⟩

/-- A 429 response. -/
def wResp429 : HttpResp :=
  ⟨429, [], "rate limited", .error "Unexpected token r"⟩

/-- A 200 response with the JSON body `{"voices":[]}`. -/
def wResp200 : HttpResp :=
  ⟨200, [], "\x7b\"voices\":[]\x7d", .ok (.jObj [("voices", .jArr [])])⟩

/-- A 200 response delivering three raw bytes. -/
def wRespBytes : HttpResp :=
  ⟨200, [1, 2, 3], "", .error "Unexpected end of JSON input"⟩

/-- A 500 response with a non-JSON body. -/
def wResp500 : HttpResp :=
  ⟨500, [], "boom", .error "Unexpected token b"⟩

/-- A 400 response with body `{"detail":{"message":"bad"}}`. -/
def wResp400 : HttpResp :=
  ⟨400, [], "bad request body", .ok (.jObj [("detail", .jObj [("message", .jStr "bad")])])⟩

/-- A remote that rate-limits the first two attempts, then succeeds. -/
def wOracle429 : Nat → FetchSpec → FetchRes :=
  fun i _ => if i < 2 then .response wResp429 else .response wResp200

/-- A remote that always answers 500. -/
def wOracle500 : Nat → FetchSpec → FetchRes :=
  fun _ _ => .response wResp500

/-- A remote that always answers 400. -/
def wOracle400 : Nat → FetchSpec → FetchRes :=
  fun _ _ => .response wResp400

/-- A remote that always delivers the raw-bytes response. -/
def wOracleBytes : Nat → FetchSpec → FetchRes :=
  fun _ _ => .response wRespBytes

/-- A remote whose connection always fails. -/
def wOracleNet : Nat → FetchSpec → FetchRes :=
  fun _ _ => .netError "connect ECONNREFUSED"

/-- A remote that always answers 200 with a body that is not JSON. -/
def wOracleBadJson : Nat → FetchSpec → FetchRes :=
  fun _ _ => .response ⟨200, [1], "x", .error "Unexpected token"⟩

/-- An environment with a credential and explicit numeric settings. -/
def wEnv : Env :=
  ⟨some "key", some "5", some "200"⟩

/-- An environment with no variables set at all. -/
def wEnvEmpty : Env :=
  ⟨none, none, none⟩

/-! ### Lemmas about a single loop iteration -/

theorem respOk_false_of_retryable {status : Nat}
    (h : (status == 429 || decide (500 ≤ status)) = true) : respOk status = false := by
  simp only [Bool.or_eq_true, beq_iff_eq, decide_eq_true_eq] at h
  simp only [respOk, Bool.and_eq_false_iff, decide_eq_false_iff_not, not_le]
  rcases h with h | h
  · right; omega
  · right; omega

theorem loopBody_next_of_retryable (c : ElevenLabsClient) (rt : ResponseType) (resp : HttpResp)
    (attempt : Nat) (hr : (resp.status == 429 || decide (500 ≤ resp.status)) = true)
    (hlt : jsLtMax attempt c.maxRetries = true) :
    loopBody c rt (.response resp) attempt =
      .next (delayOf c attempt)
        (.errStatus resp.status (getErrorMessage resp.status (extractErrorDetail resp))) := by
  simp [loopBody, respOk_false_of_retryable hr, hr, hlt]

theorem loopBody_exit_of_retryable (c : ElevenLabsClient) (rt : ResponseType) (resp : HttpResp)
    (attempt : Nat) (hr : (resp.status == 429 || decide (500 ≤ resp.status)) = true)
    (hlt : jsLtMax attempt c.maxRetries = false) :
    loopBody c rt (.response resp) attempt =
      .exit (.errStatus resp.status (getErrorMessage resp.status (extractErrorDetail resp))) := by
  have hnz : (resp.status != 0) = true := by
    simp only [Bool.or_eq_true, beq_iff_eq, decide_eq_true_eq] at hr
    simp only [bne_iff_ne, ne_eq]
    omega
  simp [loopBody, respOk_false_of_retryable hr, hr, hlt, hnz]

theorem loopBody_exit_terminalStatus (c : ElevenLabsClient) (rt : ResponseType) (resp : HttpResp)
    (attempt : Nat) (hok : respOk resp.status = false) (h429 : resp.status ≠ 429)
    (h5 : resp.status < 500) (hnz : resp.status ≠ 0) :
    loopBody c rt (.response resp) attempt =
      .exit (.errStatus resp.status (getErrorMessage resp.status (extractErrorDetail resp))) := by
  have hr : (resp.status == 429 || decide (500 ≤ resp.status)) = false := by
    simp only [Bool.or_eq_false_iff, beq_eq_false_iff_ne, ne_eq, decide_eq_false_iff_not, not_le]
    exact ⟨h429, h5⟩
  simp [loopBody, hok, hr, hnz]

theorem loopBody_exit_okJson (c : ElevenLabsClient) (resp : HttpResp) (attempt : Nat) (v : JVal)
    (hok : respOk resp.status = true) (hv : resp.jsonBody = .ok v) :
    loopBody c .json (.response resp) attempt = .exit (.success (.json v)) := by
  simp [loopBody, hok, hv]

theorem loopBody_exit_okBytes (c : ElevenLabsClient) (resp : HttpResp) (attempt : Nat)
    (hok : respOk resp.status = true) :
    loopBody c .arraybuffer (.response resp) attempt = .exit (.success (.bytes resp.bodyBytes)) := by
  simp [loopBody, hok]

theorem loopBody_next_okUnparseable (c : ElevenLabsClient) (resp : HttpResp) (attempt : Nat)
    (e : String) (hok : respOk resp.status = true) (he : resp.jsonBody = .error e)
    (hlt : jsLtMax attempt c.maxRetries = true) :
    loopBody c .json (.response resp) attempt = .next (delayOf c attempt) (.errPlain e) := by
  simp [loopBody, hok, he, hlt]

theorem loopBody_exit_okUnparseable (c : ElevenLabsClient) (resp : HttpResp) (attempt : Nat)
    (e : String) (hok : respOk resp.status = true) (he : resp.jsonBody = .error e)
    (hlt : jsLtMax attempt c.maxRetries = false) :
    loopBody c .json (.response resp) attempt = .exit (.errPlain (exhaustMsg c e)) := by
  simp [loopBody, hok, he, hlt]

theorem jsLtMax_of_loopBody_next (c : ElevenLabsClient) (rt : ResponseType) (r : FetchRes)
    (attempt : Nat) (d : Option Int) (s : ReqOutcome)
    (h : loopBody c rt r attempt = .next d s) : jsLtMax attempt c.maxRetries = true := by
  cases r <;> simp only [loopBody] at h
  all_goals repeat' split at h
  all_goals try assumption
  all_goals simp_all

/-! ### Running the attempt loop -/

theorem range_map_cons {α : Type} (f : Nat → α) (n : Nat) :
    (List.range (n + 1)).map f = f 0 :: (List.range n).map (fun i => f (i + 1)) := by
  rw [List.range_succ_eq_map, List.map_cons, List.map_map]
  rfl

/-- If the loop body asks to retry on the first `k` attempts starting at
`attempt` and exits with `o` on the next one, and at least `k` further
iterations are admitted, the loop exits with `o` after `k + 1` calls,
sleeping the body-computed backoff delay after each failed attempt. -/
theorem runLoop_run (c : ElevenLabsClient) (rt : ResponseType) (oracle : Nat → FetchRes)
    (k : Nat) :
    ∀ (attempt rem : Nat), k ≤ rem →
      (∀ i, i < k → ∃ s, loopBody c rt (oracle (attempt + i)) (attempt + i) =
        .next (delayOf c (attempt + i)) s) →
      ∀ o, loopBody c rt (oracle (attempt + k)) (attempt + k) = .exit o →
        runLoop c rt oracle attempt rem =
          (.exited o, ⟨k + 1, (List.range k).map (fun i => delayOf c (attempt + i))⟩) := by
  induction k with
  | zero =>
    intro attempt rem _ _ o hexit
    rw [Nat.add_zero] at hexit
    cases rem <;> simp [runLoop, hexit]
  | succ n ih =>
    intro attempt rem hle hsteps o hexit
    obtain ⟨s, hs⟩ := hsteps 0 (Nat.succ_pos n)
    rw [Nat.add_zero] at hs
    obtain ⟨rem', rfl⟩ : ∃ rem', rem = rem' + 1 := ⟨rem - 1, by omega⟩
    have hrec := ih (attempt + 1) rem' (by omega)
      (fun i hi => by
        have h := hsteps (i + 1) (by omega)
        rwa [show attempt + (i + 1) = attempt + 1 + i by omega] at h)
      o (by rwa [show attempt + (n + 1) = attempt + 1 + n by omega] at hexit)
    simp only [runLoop, hs, hrec]
    refine Prod.ext rfl ?_
    simp only [range_map_cons (fun i => delayOf c (attempt + i)) n]
    have harg : (fun i => delayOf c (attempt + 1 + i)) = fun i => delayOf c (attempt + (i + 1)) :=
      funext fun i => by rw [show attempt + 1 + i = attempt + (i + 1) by omega]
    simp [harg]

/-- Whenever the iteration budget matches the loop guard
(`attempt + rem = maxRetries`), the loop produces its result from
within an iteration: the `finished` outcome is unreachable. -/
theorem runLoop_exits (c : ElevenLabsClient) (rt : ResponseType) (oracle : Nat → FetchRes)
    (m : Int) (hm : c.maxRetries = some m) :
    ∀ (rem attempt : Nat), attempt + rem = m.toNat →
      ∃ o, (runLoop c rt oracle attempt rem).1 = .exited o := by
  intro rem
  induction rem with
  | zero =>
    intro attempt hinv
    cases hb : loopBody c rt (oracle attempt) attempt with
    | exit o => exact ⟨o, by simp [runLoop, hb]⟩
    | next d s =>
      have hlt := jsLtMax_of_loopBody_next c rt (oracle attempt) attempt d s hb
      rw [hm] at hlt
      simp only [jsLtMax, decide_eq_true_eq] at hlt
      have h2 := Int.self_le_toNat m
      omega
  | succ rem' ih =>
    intro attempt hinv
    cases hb : loopBody c rt (oracle attempt) attempt with
    | exit o => exact ⟨o, by simp [runLoop, hb]⟩
    | next d s =>
      obtain ⟨o, ho⟩ := ih (attempt + 1) (by omega)
      exact ⟨o, by simp only [runLoop, hb]; exact ho⟩

/-- Under a non-negative integer `maxRetries`, `request` is the loop run
from attempt 0 with `maxRetries` retries admitted. -/
theorem request_eq_runLoop (c : ElevenLabsClient) (endpoint : String) (options : RequestOptions)
    (oracle : Nat → FetchSpec → FetchRes) (m : Int) (hm : c.maxRetries = some m) (h0 : 0 ≤ m) :
    request c endpoint options oracle =
      match runLoop c options.responseType
          (fun a => oracle a (requestFetchSpec c endpoint options)) 0 m.toNat with
      | (.exited o, t) => (o, t)
      | (.finished lastError, t) =>
        (lastError.getD (.errPlain "Request failed after all retries"), t) := by
  simp only [request, hm]
  rw [if_pos h0]

/-- End-to-end form of `runLoop_run` for `request`. -/
theorem request_run (c : ElevenLabsClient) (endpoint : String) (options : RequestOptions)
    (oracle : Nat → FetchSpec → FetchRes) (m : Int) (k : Nat)
    (hm : c.maxRetries = some m) (h0 : 0 ≤ m) (hk : k ≤ m.toNat)
    (hsteps : ∀ i, i < k → ∃ s,
      loopBody c options.responseType (oracle i (requestFetchSpec c endpoint options)) i =
        .next (delayOf c i) s)
    (o : ReqOutcome)
    (hexit : loopBody c options.responseType
        (oracle k (requestFetchSpec c endpoint options)) k = .exit o) :
    request c endpoint options oracle =
      (o, ⟨k + 1, (List.range k).map (fun i => delayOf c i)⟩) := by
  rw [request_eq_runLoop c endpoint options oracle m hm h0]
  rw [runLoop_run c options.responseType _ k 0 m.toNat hk
    (fun i hi => by simpa using hsteps i hi) o (by simpa using hexit)]
  have harg : (fun i => delayOf c (0 + i)) = fun i => delayOf c i :=
    funext fun i => by rw [Nat.zero_add]
  simp [harg]

theorem jsLtMax_of_lt (m : Int) (i : Nat) (h : i < m.toNat) : jsLtMax i (some m) = true := by
  simp only [jsLtMax, decide_eq_true_eq]
  omega

theorem jsLtMax_toNat_self (m : Int) : jsLtMax m.toNat (some m) = false := by
  simp only [jsLtMax, decide_eq_false_iff_not, not_lt]
  exact Int.self_le_toNat m

theorem loopBody_next_of_isRetryable (c : ElevenLabsClient) (rt : ResponseType) (r : FetchRes)
    (attempt : Nat) (hr : isRetryableStatus r = true)
    (hlt : jsLtMax attempt c.maxRetries = true) :
    ∃ s, loopBody c rt r attempt = .next (delayOf c attempt) s := by
  cases r with
  | netError m => simp [isRetryableStatus] at hr
  | response resp =>
    exact ⟨_, loopBody_next_of_retryable c rt resp attempt
      (by simpa [isRetryableStatus] using hr) hlt⟩

theorem isRetryableStatus_of_500 (r : FetchRes) (h : isStatus500 r = true) :
    isRetryableStatus r = true := by
  cases r with
  | netError m => simp [isStatus500] at h
  | response resp =>
    simp only [isStatus500, beq_iff_eq] at h
    simp only [isRetryableStatus, Bool.or_eq_true, beq_iff_eq, decide_eq_true_eq]
    omega

/-! ### Claims -/

/-- Claim C2: for every `maxRetries ≥ 0` and every `k ≤ maxRetries` (the
claim's `k < maxRetries`, plus its "in particular `k = 0`" case), if the
remote responds 429 or ≥ 500 on each of the first `k` attempts and 2xx
(with a JSON body decoding to `v`) on attempt `k`, `request` performs
exactly `k + 1` network calls, returns the decoded payload, and the
delays slept are exactly `2^i * retryDelayMs` for `i = 0 … k-1` (so the
total slept time is their sum); for `k = 0` there is exactly one call
and no sleep. -/
theorem claim_C2 (c : ElevenLabsClient) (endpoint : String) (options : RequestOptions)
    (oracle : Nat → FetchSpec → FetchRes) (m d : Int) (k : Nat) (resp : HttpResp) (v : JVal)
    (hm : c.maxRetries = some m) (h0 : 0 ≤ m) (hd : c.retryDelayMs = some d)
    (hrt : options.responseType = .json) (hk : k ≤ m.toNat)
    (hfail : ∀ i, i < k →
      isRetryableStatus (oracle i (requestFetchSpec c endpoint options)) = true)
    (hsucc : oracle k (requestFetchSpec c endpoint options) = .response resp)
    (hok : respOk resp.status = true) (hv : resp.jsonBody = .ok v) :
    request c endpoint options oracle =
      (.success (.json v), ⟨k + 1, (List.range k).map (fun i => some ((2 : Int) ^ i * d))⟩) := by
  have hr := request_run c endpoint options oracle m k hm h0 hk
    (fun i hi => loopBody_next_of_isRetryable c options.responseType _ i (hfail i hi)
      (by rw [hm]; exact jsLtMax_of_lt m i (by omega)))
    (.success (.json v))
    (by rw [hrt, hsucc]; exact loopBody_exit_okJson c resp k v hok hv)
  rw [hr]
  have harg : (fun i => delayOf c i) = fun i => some ((2 : Int) ^ i * d) :=
    funext fun i => by simp [delayOf, hd]
  rw [harg]

/-- Witness for C2 at `k = 2`: two 429 responses, then `200 {"voices":[]}`,
under the default configuration. -/
theorem claim_C2_witness :
    request wClient "/voices" wOpts wOracle429 =
      (.success (.json (.jObj [("voices", .jArr [])])), ⟨3, [some 1000, some 2000]⟩) := by
  have h := claim_C2 wClient "/voices" wOpts wOracle429 3 1000 2 wResp200
    (.jObj [("voices", .jArr [])]) rfl (by decide) rfl rfl (by decide) (by decide) rfl rfl rfl
  exact h.trans rfl

/-- Claim C3: if the remote responds 500 on every attempt, `request`
performs exactly `maxRetries + 1` network calls and fails with the
thrown status-tagged error (the spec's terminal `ClassifiedError`)
carrying status 500; no success value is returned. -/
theorem claim_C3 (c : ElevenLabsClient) (endpoint : String) (options : RequestOptions)
    (oracle : Nat → FetchSpec → FetchRes) (m : Int)
    (hm : c.maxRetries = some m) (h0 : 0 ≤ m)
    (hfail : ∀ i, i ≤ m.toNat →
      isStatus500 (oracle i (requestFetchSpec c endpoint options)) = true) :
    ∃ msg, request c endpoint options oracle =
      (.errStatus 500 msg, ⟨m.toNat + 1, (List.range m.toNat).map (fun i => delayOf c i)⟩) := by
  have hlast := hfail m.toNat (le_refl _)
  cases hresp : oracle m.toNat (requestFetchSpec c endpoint options) with
  | netError msg => rw [hresp] at hlast; simp [isStatus500] at hlast
  | response resp =>
    rw [hresp] at hlast
    rcases resp with ⟨st, bb, bt, jb⟩
    have h500 : st = 500 := by simpa [isStatus500] using hlast
    subst h500
    refine ⟨getErrorMessage 500 (extractErrorDetail ⟨500, bb, bt, jb⟩), ?_⟩
    exact request_run c endpoint options oracle m m.toNat hm h0 (le_refl _)
      (fun i hi => loopBody_next_of_isRetryable c options.responseType _ i
        (isRetryableStatus_of_500 _ (hfail i (by omega)))
        (by rw [hm]; exact jsLtMax_of_lt m i hi))
      (.errStatus 500 (getErrorMessage 500 (extractErrorDetail ⟨500, bb, bt, jb⟩)))
      (by
        rw [hresp]
        exact loopBody_exit_of_retryable c options.responseType ⟨500, bb, bt, jb⟩ m.toNat
          (by simp) (by rw [hm]; exact jsLtMax_toNat_self m))

/-- Witness for C3: a remote that always answers 500, under the default
configuration: 4 calls, backoff 1000/2000/4000 ms, final status 500. -/
theorem claim_C3_witness :
    ∃ msg, request wClient "/voices" wOpts wOracle500 =
      (.errStatus 500 msg, ⟨4, [some 1000, some 2000, some 4000]⟩) := by
  obtain ⟨msg, h⟩ := claim_C3 wClient "/voices" wOpts wOracle500 3 rfl (by decide) (by decide)
  exact ⟨msg, h.trans rfl⟩

/-- Claim C5: a response whose status is neither 429 nor ≥ 500 (and not
in the 2xx success range) is never retried: whenever such a response
arrives on attempt `k` (after `k` retryable failures; `k = 0` is the
claim's 400/401-on-first-attempt case), `request` fails immediately with
the status-tagged error for that status, with no further network call
and with no backoff sleep after it, regardless of the remaining retry
budget.  Statuses are genuine HTTP statuses (≥ 100). -/
theorem claim_C5 (c : ElevenLabsClient) (endpoint : String) (options : RequestOptions)
    (oracle : Nat → FetchSpec → FetchRes) (m : Int) (k : Nat) (resp : HttpResp)
    (hm : c.maxRetries = some m) (h0 : 0 ≤ m) (hk : k ≤ m.toNat)
    (hfail : ∀ i, i < k →
      isRetryableStatus (oracle i (requestFetchSpec c endpoint options)) = true)
    (hresp : oracle k (requestFetchSpec c endpoint options) = .response resp)
    (h100 : 100 ≤ resp.status) (hnok : respOk resp.status = false)
    (h429 : resp.status ≠ 429) (h5 : resp.status < 500) :
    request c endpoint options oracle =
      (.errStatus resp.status (getErrorMessage resp.status (extractErrorDetail resp)),
        ⟨k + 1, (List.range k).map (fun i => delayOf c i)⟩) := by
  exact request_run c endpoint options oracle m k hm h0 hk
    (fun i hi => loopBody_next_of_isRetryable c options.responseType _ i (hfail i hi)
      (by rw [hm]; exact jsLtMax_of_lt m i (by omega)))
    _
    (by
      rw [hresp]
      exact loopBody_exit_terminalStatus c options.responseType resp k hnok h429 h5 (by omega))

/-- Witness for C5 at `k = 0`: a 400 response on the first attempt under
the default configuration: one call, no sleep, status 400. -/
theorem claim_C5_witness :
    request wClient "/voices" wOpts wOracle400 =
      (.errStatus 400 "Bad Request - Invalid parameters provided: bad", ⟨1, []⟩) := by
  have h := claim_C5 wClient "/voices" wOpts wOracle400 3 0 wResp400 rfl (by decide) (by decide)
    (fun i hi => absurd hi (by omega)) rfl (by decide) (by decide) (by decide) (by decide)
  exact h.trans rfl

/-- Claim C8: with `responseType` `arraybuffer`, a 2xx response (here on
attempt `k`, after `k` retryable failures; `k = 0` is the plain case)
yields exactly the response's byte sequence, unmodified — the result is
`resp.bodyBytes` itself, independent of the response's text or JSON
fields, so no text decoding or JSON parsing affects it. -/
theorem claim_C8 (c : ElevenLabsClient) (endpoint : String) (options : RequestOptions)
    (oracle : Nat → FetchSpec → FetchRes) (m : Int) (k : Nat) (resp : HttpResp)
    (hm : c.maxRetries = some m) (h0 : 0 ≤ m)
    (hrt : options.responseType = .arraybuffer) (hk : k ≤ m.toNat)
    (hfail : ∀ i, i < k →
      isRetryableStatus (oracle i (requestFetchSpec c endpoint options)) = true)
    (hresp : oracle k (requestFetchSpec c endpoint options) = .response resp)
    (hok : respOk resp.status = true) :
    request c endpoint options oracle =
      (.success (.bytes resp.bodyBytes), ⟨k + 1, (List.range k).map (fun i => delayOf c i)⟩) := by
  exact request_run c endpoint options oracle m k hm h0 hk
    (fun i hi => loopBody_next_of_isRetryable c options.responseType _ i (hfail i hi)
      (by rw [hm]; exact jsLtMax_of_lt m i (by omega)))
    _
    (by rw [hrt, hresp]; exact loopBody_exit_okBytes c resp k hok)

/-- Witness for C8 at `k = 0`: a 200 response delivering the bytes
`[1, 2, 3]` is returned exactly. -/
theorem claim_C8_witness :
    request wClient "/tts" wOptsBuf wOracleBytes =
      (.success (.bytes [1, 2, 3]), ⟨1, []⟩) := by
  have h := claim_C8 wClient "/tts" wOptsBuf wOracleBytes 3 0 wRespBytes rfl (by decide) rfl
    (by decide) (fun i hi => absurd hi (by omega)) rfl (by decide)
  exact h.trans rfl

/-- Claim C10: under the precondition `maxRetries ≥ 0`, the attempt loop
always produces the result of `request` from within an iteration
(`LoopRes.exited`), so the post-loop fallback throw
(`'Request failed after all retries'`, reachable in the model only when
`maxRetries` is negative or `NaN`) is never reached. -/
theorem claim_C10 (c : ElevenLabsClient) (endpoint : String) (options : RequestOptions)
    (oracle : Nat → FetchSpec → FetchRes) (m : Int)
    (hm : c.maxRetries = some m) (h0 : 0 ≤ m) :
    ∃ o t, runLoop c options.responseType
        (fun a => oracle a (requestFetchSpec c endpoint options)) 0 m.toNat = (.exited o, t) ∧
      request c endpoint options oracle = (o, t) := by
  obtain ⟨o, ho⟩ := runLoop_exits c options.responseType
    (fun a => oracle a (requestFetchSpec c endpoint options)) m hm m.toNat 0 (by omega)
  rcases hrl : runLoop c options.responseType
      (fun a => oracle a (requestFetchSpec c endpoint options)) 0 m.toNat with ⟨res, t⟩
  rw [hrl] at ho
  have hres : res = .exited o := ho
  subst hres
  refine ⟨o, t, rfl, ?_⟩
  rw [request_eq_runLoop c endpoint options oracle m hm h0, hrl]

/-- Witness for C10: with `maxRetries = 0` and a failing network, the
loop exits on its single iteration and `request` reports that result. -/
theorem claim_C10_witness :
    ∃ o t, runLoop wClient0 wOpts.responseType
        (fun a => wOracleNet a (requestFetchSpec wClient0 "/voices" wOpts)) 0 (0 : Int).toNat =
        (.exited o, t) ∧
      request wClient0 "/voices" wOpts wOracleNet = (o, t) :=
  claim_C10 wClient0 "/voices" wOpts wOracleNet 0 rfl (by decide)

/-- Claim C1 is false on the code: a 2xx response whose body fails to
parse falls into the generic `catch` without a `status` tag and is
treated as a network error.  With `maxRetries = 1`, a remote that always
answers 200 with an unparseable body produces TWO network calls and one
100 ms backoff sleep — not an immediate, unretried decode error — and
the failure surfaces as the generic network-exhaustion error, not a
distinct `DecodeError` (no such error exists in the code). -/
theorem claim_C1_counterexample :
    request wClient1 "/e" wOpts wOracleBadJson =
      (.errPlain "Network error after 2 attempts: Unexpected token", ⟨2, [some 100]⟩) := rfl

/-- Claim C1 (amended): a 2xx response whose body fails to parse as JSON
is treated like a transport failure: while attempts remain it is retried
with the usual backoff sleep, and when attempts are exhausted it
propagates as the plain network-exhaustion error
(`Network error after N attempts: …`), not as a distinct decode error;
here stated for a remote whose every answer is 2xx-with-unparseable-body:
`maxRetries + 1` calls are made with the full backoff schedule. -/
theorem claim_C1_amended (c : ElevenLabsClient) (endpoint : String) (options : RequestOptions)
    (oracle : Nat → FetchSpec → FetchRes) (m : Int)
    (hm : c.maxRetries = some m) (h0 : 0 ≤ m) (hrt : options.responseType = .json)
    (hfail : ∀ i, i ≤ m.toNat →
      isOkUnparseable (oracle i (requestFetchSpec c endpoint options)) = true) :
    ∃ msg, request c endpoint options oracle =
      (.errPlain msg, ⟨m.toNat + 1, (List.range m.toNat).map (fun i => delayOf c i)⟩) := by
  have hstep : ∀ i, i < m.toNat → ∃ s,
      loopBody c options.responseType (oracle i (requestFetchSpec c endpoint options)) i =
        .next (delayOf c i) s := by
    intro i hi
    have h := hfail i (by omega)
    cases hr : oracle i (requestFetchSpec c endpoint options) with
    | netError msg => rw [hr] at h; simp [isOkUnparseable] at h
    | response resp =>
      rw [hr] at h
      simp only [isOkUnparseable, Bool.and_eq_true] at h
      obtain ⟨hok, hjs⟩ := h
      cases hjb : resp.jsonBody with
      | ok v => rw [hjb] at hjs; simp at hjs
      | error e =>
        rw [hrt]
        exact ⟨.errPlain e, loopBody_next_okUnparseable c resp i e hok hjb
          (by rw [hm]; exact jsLtMax_of_lt m i hi)⟩
  have hlastfact := hfail m.toNat (le_refl _)
  cases hr : oracle m.toNat (requestFetchSpec c endpoint options) with
  | netError msg => rw [hr] at hlastfact; simp [isOkUnparseable] at hlastfact
  | response resp =>
    rw [hr] at hlastfact
    simp only [isOkUnparseable, Bool.and_eq_true] at hlastfact
    obtain ⟨hok, hjs⟩ := hlastfact
    cases hjb : resp.jsonBody with
    | ok v => rw [hjb] at hjs; simp at hjs
    | error e =>
      refine ⟨exhaustMsg c e, ?_⟩
      exact request_run c endpoint options oracle m m.toNat hm h0 (le_refl _) hstep
        (.errPlain (exhaustMsg c e))
        (by
          rw [hrt, hr]
          exact loopBody_exit_okUnparseable c resp m.toNat e hok hjb
            (by rw [hm]; exact jsLtMax_toNat_self m))

/-- Witness for the amended C1: `maxRetries = 1`, base delay 100 ms,
every answer 200-with-unparseable-body: two calls, one 100 ms sleep,
plain network-exhaustion error. -/
theorem claim_C1_amended_witness :
    ∃ msg, request wClient1 "/e" wOpts wOracleBadJson =
      (.errPlain msg, ⟨2, [some 100]⟩) := by
  obtain ⟨msg, h⟩ := claim_C1_amended wClient1 "/e" wOpts wOracleBadJson 1 rfl (by decide) rfl
    (by decide)
  exact ⟨msg, h.trans rfl⟩

/-- Last-binding lookup distributes over JS-object concatenation: the
right (later-written) part shadows the left. -/
theorem jsObjGet_append (m1 m2 : List (String × String)) (k : String) :
    jsObjGet (m1 ++ m2) k = (jsObjGet m2 k).or (jsObjGet m1 k) := by
  unfold jsObjGet
  rw [List.reverse_append, List.find?_append]
  cases m2.reverse.find? (fun p => p.1 == k) <;> simp

/-- Claim C4 is false on the code: the caller's header map is spread
AFTER the default `'xi-api-key': this.apiKey` entry, so a caller-supplied
`xi-api-key` header replaces the configured credential.  Here the client
is configured with credential `config-secret`, yet the header actually
sent carries `attacker`. -/
theorem claim_C4_counterexample :
    jsObjGet (requestFetchSpec ⟨"config-secret", some 3, some 1000⟩ "/voices"
        ⟨.GET, none, [("xi-api-key", "attacker")], .json⟩).headers "xi-api-key" =
      some "attacker" ∧
    jsObjGet (requestFetchSpec ⟨"config-secret", some 3, some 1000⟩ "/voices"
        ⟨.GET, none, [("xi-api-key", "attacker")], .json⟩).headers "xi-api-key" ≠
      some "config-secret" :=
  ⟨rfl, by decide⟩

/-- Claim C4 (amended): the authentication header defaults to the
configured credential and equals it on every attempt whenever the
caller-supplied header map contains no `xi-api-key` entry of its own
(caller-supplied headers take precedence over the default). -/
theorem claim_C4_amended (c : ElevenLabsClient) (endpoint : String) (options : RequestOptions)
    (h : jsObjGet options.headers "xi-api-key" = none) :
    jsObjGet (requestFetchSpec c endpoint options).headers "xi-api-key" = some c.apiKey := by
  have hbase : jsObjGet ([("xi-api-key", c.apiKey)] ++ options.headers) "xi-api-key" =
      some c.apiKey := by
    rw [jsObjGet_append, h]
    rfl
  simp only [requestFetchSpec, buildRequestHeaders]
  split
  · rw [jsObjGet_append]
    rw [hbase]
    rfl
  · exact hbase

/-- Witness for the amended C4: a caller sending no `xi-api-key` header
gets the configured credential `sec` in the sent headers. -/
theorem claim_C4_amended_witness :
    jsObjGet (requestFetchSpec ⟨"sec", some 3, some 1000⟩ "/voices" wOpts).headers "xi-api-key" =
      some "sec" :=
  claim_C4_amended ⟨"sec", some 3, some 1000⟩ "/voices" wOpts rfl

/-- Claim C6 is false on the code: the guard is the JS-truthiness test
`!requestHeaders['Content-Type']`, so a caller-supplied `Content-Type`
whose value is the empty string IS replaced by the automatic default
even though the caller did supply the header. -/
theorem claim_C6_counterexample :
    jsObjGet (requestFetchSpec wClient "/tts"
        ⟨.POST, some (.jObj [("text", .jStr "hi")]), [("Content-Type", "")], .json⟩).headers
      "Content-Type" = some "application/json" ∧
    jsObjGet ([("Content-Type", "")]) "Content-Type" = some "" :=
  ⟨rfl, rfl⟩

/-- Claim C6 (amended): the `Content-Type` actually sent is the
caller-supplied value, except that the default `application/json` is
installed exactly when the body is present and truthy AND the
caller-supplied `Content-Type` is absent or empty (JS truthiness); in
particular a non-empty caller-supplied `Content-Type` is never
replaced. -/
theorem claim_C6_amended (c : ElevenLabsClient) (endpoint : String) (options : RequestOptions) :
    jsObjGet (requestFetchSpec c endpoint options).headers "Content-Type" =
      if bodyTruthy options.body && !ctTruthy (jsObjGet options.headers "Content-Type") then
        some "application/json"
      else jsObjGet options.headers "Content-Type" := by
  have hbase : jsObjGet ([("xi-api-key", c.apiKey)] ++ options.headers) "Content-Type" =
      jsObjGet options.headers "Content-Type" := by
    rw [jsObjGet_append]
    cases jsObjGet options.headers "Content-Type" <;> rfl
  simp only [requestFetchSpec, buildRequestHeaders, hbase]
  split
  · rw [jsObjGet_append]
    rfl
  · exact hbase

/-- Claim C7: first-time construction of the process-wide client
(`getClient` with no stored instance) fails — with the configuration
error message — exactly when the environment credential is absent or
empty.  The check happens inside `getClient` itself, before any client
is produced; no request is involved (`request` never inspects the
key). -/
theorem claim_C7 (env : Env) :
    (∃ e, getClient env none = .error e) ↔
      (env.elevenlabsApiKey = none ∨ env.elevenlabsApiKey = some "") := by
  rcases env with ⟨key, mr, rd⟩
  cases key with
  | none => simp [getClient]
  | some k =>
    by_cases hk : k = ""
    · subst hk; simp [getClient]
    · simp [getClient, hk]

/-- Claim C9: the process-wide client is a singleton.  Any access with a
stored instance returns that identical instance, for an arbitrary (even
changed) environment — configuration is not re-read; `resetClient`
clears the stored instance; and the next access after a reset constructs
a fresh instance from the then-current environment (credential, parsed
`MAX_RETRIES` with default `'3'`, parsed `RETRY_DELAY_MS` with default
`'1000'`).  JS module evaluation is single-threaded and `getClient` has
no suspension point, so concurrent first-time accesses serialize into
exactly this first-access/subsequent-access behavior. -/
theorem claim_C9 (envA env : Env) (c : ElevenLabsClient) (st : Option ElevenLabsClient)
    (key : String) (hkey : env.elevenlabsApiKey = some key) (hne : key ≠ "") :
    getClient envA (some c) = .ok (c, some c) ∧
    resetClient st = none ∧
    getClient env (resetClient st) =
      .ok (ElevenLabsClient.ofConfig
          ⟨key, some (parseIntJs (jsOrDefault env.maxRetriesVar "3")),
            some (parseIntJs (jsOrDefault env.retryDelayMsVar "1000"))⟩,
        some (ElevenLabsClient.ofConfig
          ⟨key, some (parseIntJs (jsOrDefault env.maxRetriesVar "3")),
            some (parseIntJs (jsOrDefault env.retryDelayMsVar "1000"))⟩)) := by
  refine ⟨rfl, rfl, ?_⟩
  simp [getClient, resetClient, hkey, hne]

/-- Witness for C9: a prior instance is returned as-is under an empty
environment; after a reset, construction from `wEnv` yields a client
reflecting `MAX_RETRIES=5` and `RETRY_DELAY_MS=200`. -/
theorem claim_C9_witness :
    getClient wEnvEmpty (some wClient) = .ok (wClient, some wClient) ∧
    resetClient (some wClient) = none ∧
    getClient wEnv (resetClient (some wClient)) =
      .ok (⟨"key", some 5, some 200⟩, some (⟨"key", some 5, some 200⟩ : ElevenLabsClient)) := by
  have h := claim_C9 wEnvEmpty wEnv wClient (some wClient) "key" rfl (by decide)
  refine ⟨h.1, h.2.1, h.2.2.trans ?_⟩
  rfl

end Elv
